import Mathlib

/-!
# cpu-boost: boost synchronisation and decay engine

Shallow embedding of `drivers/cpufreq/cpu-boost.c`.

* `unsigned int` values are natural numbers; where the C arithmetic can wrap the
  reduction modulo `2^32` is written out (`u32`).
* `int` loads are integers; the implicit conversion `int -> unsigned int` is `int_to_uint`.
* CPU ids index the per-CPU area, so they are natural numbers.
* The per-CPU variable `sync_info` is a function from CPU id to `cpu_sync`.
* Calls into other kernel subsystems (cpufreq, workqueue, printk) are recorded, in order,
  as a list of `Call`s returned next to the new state.
-/

namespace CpuBoost

/-! ## Machine arithmetic -/

/-- Largest `unsigned int`. -/
def UINT_MAX : Nat := 4294967295

/-- Reduction of a natural number to an `unsigned int` (32 bits). -/
def u32 (n : Nat) : Nat := n % 4294967296

/-- Reduction of a natural number to a `u64`. -/
def u64 (n : Nat) : Nat := n % 18446744073709551616

/-- Implicit C conversion of an `int` to `unsigned int`. -/
def int_to_uint (i : Int) : Nat := (i % 4294967296).toNat

/-! ## Data model -/

/-- The part of `struct cpufreq_cpuinfo` the driver reads. -/
structure cpufreq_cpuinfo where
  min_freq : Nat
  deriving DecidableEq, Repr

/-- The part of `struct cpufreq_policy` the driver reads or writes. -/
structure cpufreq_policy where
  cpuinfo : cpufreq_cpuinfo
  cpu : Nat
  min : Nat
  max : Nat
  cur : Nat
  deriving DecidableEq, Repr

/-- Record `struct cpu_sync`; the two `delayed_work` members are handled through
`Call`s and the spinlock has no sequential content. -/
structure cpu_sync where
  cpu : Nat
  pending : Bool
  src_cpu : Nat
  boost_min : Nat
  input_boost_min : Nat
  task_load : Nat
  deriving DecidableEq, Repr

/-- The per-CPU variable `sync_info`. -/
abbrev SyncInfo := Nat → cpu_sync

/-- Module parameters of the driver, read fresh at each decision point. -/
structure Params where
  cpu_boost : Nat
  boost_ms : Nat
  sync_threshold : Nat
  input_boost_freq : Nat
  input_boost_ms : Nat
  migration_load_threshold : Nat
  load_based_syncs : Bool
  hotplug_boost : Bool
  min_input_interval : Nat
  deriving DecidableEq, Repr

/-- Default values of the module parameters, as in their declarations. -/
def Params.default : Params :=
  { cpu_boost := 0, boost_ms := 0, sync_threshold := 0, input_boost_freq := 0,
    input_boost_ms := 40, migration_load_threshold := 30, load_based_syncs := true,
    hotplug_boost := true, min_input_interval := 150 }

/-- Argument `struct migration_notify_data` of the migration notifier. -/
structure migration_notify_data where
  src_cpu : Nat
  dest_cpu : Nat
  load : Int
  deriving DecidableEq, Repr

/-- The two delayed works embedded in a `cpu_sync`. -/
inductive Work where
  | boost_rem
  | input_boost_rem
  deriving DecidableEq, Repr

/-- Calls the driver makes into the rest of the kernel. `owner` is the CPU whose
`cpu_sync` holds the delayed work. -/
inductive Call where
  | cpufreq_update_policy (cpu : Nat)
  | cancel_delayed_work_sync (owner : Nat) (w : Work)
  | queue_delayed_work_on (cpu : Nat) (owner : Nat) (w : Work) (msecs : Nat)
  | queue_work_input_boost
  | pr_err_invalid_load (load : Int)
  deriving DecidableEq, Repr

/-- What the driver observes of the cpufreq and hotplug subsystems during one job. -/
structure Env where
  /-- Result of `cpufreq_get_policy`; `none` is a non-zero return value. -/
  cpufreq_get_policy : Nat → Option cpufreq_policy
  /-- Result of `cpu_online`. -/
  cpu_online : Nat → Bool
  /-- Number of possible CPUs. -/
  nr_cpu_ids : Nat

/-- State of `sync_info` after `cpu_boost_init`: zero-initialised per-CPU data with
`s->cpu = cpu`. -/
def sync_info_init : SyncInfo := fun cpu =>
  { cpu := cpu, pending := false, src_cpu := 0, boost_min := 0, input_boost_min := 0,
    task_load := 0 }

/-! ## External helpers -/

/-- Value of the notifier event `CPUFREQ_ADJUST` in `include/linux/cpufreq.h`. -/
def CPUFREQ_ADJUST : Nat := 0

/-- Modelled from the spec: `cpufreq_verify_within_limits` lives in
`include/linux/cpufreq.h`, which is not part of the sources at hand. The spec describes
its use as widening the policy minimum to be at least the given bound; this is the
kernel helper, which raises `min` and `max` to the lower limit, lowers them to the
upper limit and finally keeps `min <= max`. -/
def cpufreq_verify_within_limits (policy : cpufreq_policy) (min max : Nat) : cpufreq_policy :=
  let p1 := if policy.min < min then { policy with min := min } else policy
  let p2 := if p1.max < min then { p1 with max := min } else p1
  let p3 := if p2.min > max then { p2 with min := max } else p2
  let p4 := if p3.max > max then { p3 with max := max } else p3
  if p4.min > p4.max then { p4 with min := p4.max } else p4

/-! ## PolicyMinEnforcer -/

/-- Function `boost_adjust_notify`: the `CPUFREQ_ADJUST` policy notifier. Returns the
policy as left in `*data`; the return value is always `NOTIFY_OK`. -/
def boost_adjust_notify (si : SyncInfo) (val : Nat) (policy : cpufreq_policy) : cpufreq_policy :=
  let cpu := policy.cpu
  let s := si cpu
  let b_min := s.boost_min
  let ib_min := s.input_boost_min
  if val ≠ CPUFREQ_ADJUST then policy
  else if b_min = 0 ∧ ib_min = 0 then policy
  else
    let min := max b_min ib_min
    let min := Nat.min min policy.max
    cpufreq_verify_within_limits policy min UINT_MAX

/-! ## BoostExpiryScheduler -/

/-- Function `do_boost_rem`, run for the `boost_rem` work of CPU `owner`. -/
def do_boost_rem (owner : Nat) (si : SyncInfo) : SyncInfo × List Call :=
  let s := si owner
  (Function.update si owner { s with boost_min := 0 }, [Call.cpufreq_update_policy s.cpu])

/-- Function `do_input_boost_rem`, run for the `input_boost_rem` work of CPU `owner`. -/
def do_input_boost_rem (owner : Nat) (si : SyncInfo) : SyncInfo × List Call :=
  let s := si owner
  (Function.update si owner { s with input_boost_min := 0 },
    [Call.cpufreq_update_policy s.cpu])

/-! ## BoostWorker -/

/-- Function `boost_migration_should_run`. -/
def boost_migration_should_run (cpu : Nat) (si : SyncInfo) : Bool :=
  (si cpu).pending

/-- Function `run_boost_migration`, the thread function of `boost_sync/<cpu>`. -/
def run_boost_migration (P : Params) (E : Env) (cpu : Nat) (si : SyncInfo) :
    SyncInfo × List Call :=
  let dest_cpu := cpu
  let s := si dest_cpu
  -- s->pending = false; src_cpu = s->src_cpu;
  let si1 := Function.update si dest_cpu { s with pending := false }
  let src_cpu := s.src_cpu
  match E.cpufreq_get_policy src_cpu with
  | none => (si1, [])
  | some src_policy =>
    match E.cpufreq_get_policy dest_cpu with
    | none => (si1, [])
    | some dest_policy =>
      let req_freq :=
        if P.load_based_syncs then u32 (dest_policy.max * s.task_load) / 100
        else src_policy.cur
      if req_freq ≤ dest_policy.cpuinfo.min_freq then (si1, [])
      else
        let req_freq := if P.sync_threshold ≠ 0 then min P.sync_threshold req_freq else req_freq
        let c1 := [Call.cancel_delayed_work_sync dest_cpu Work.boost_rem]
        -- s->boost_min = req_freq;
        let si2 := Function.update si1 dest_cpu { si1 dest_cpu with boost_min := req_freq }
        let c2 := if E.cpu_online src_cpu then [Call.cpufreq_update_policy src_cpu] else []
        if E.cpu_online dest_cpu then
          (si2, c1 ++ c2 ++ [Call.cpufreq_update_policy dest_cpu,
            Call.queue_delayed_work_on dest_cpu dest_cpu Work.boost_rem P.boost_ms])
        else
          (Function.update si2 dest_cpu { si2 dest_cpu with boost_min := 0 }, c1 ++ c2)

/-- One iteration of the smpboot thread loop for `cpu`: the thread function runs only
when `boost_migration_should_run` says so. -/
def boost_sync_thread (P : Params) (E : Env) (cpu : Nat) (si : SyncInfo) :
    SyncInfo × List Call :=
  if boost_migration_should_run cpu si then run_boost_migration P E cpu si else (si, [])

/-! ## MigrationBoostCoordinator -/

/-- Function `boost_migration_notify`. `thread_is_current` is the outcome of the test
`thread == current`. The return value is always `NOTIFY_OK`. -/
def boost_migration_notify (P : Params) (thread_is_current : Bool)
    (mnd : migration_notify_data) (si : SyncInfo) : SyncInfo × List Call :=
  let s := si mnd.dest_cpu
  if P.load_based_syncs ∧ int_to_uint mnd.load ≤ P.migration_load_threshold then (si, [])
  else if P.load_based_syncs ∧ (mnd.load < 0 ∨ mnd.load > 100) then
    (si, [Call.pr_err_invalid_load mnd.load])
  else if ¬ P.load_based_syncs ∧ mnd.src_cpu = mnd.dest_cpu then (si, [])
  else if P.boost_ms = 0 then (si, [])
  else if thread_is_current then (si, [])
  else
    (Function.update si mnd.dest_cpu
      { s with
        pending := true
        src_cpu := mnd.src_cpu
        task_load := if P.load_based_syncs then int_to_uint mnd.load else 0 }, [])

/-! ## Global input-boost job -/

/-- Body of the `for_each_online_cpu` loop of `do_input_boost` for CPU `i`. -/
def do_input_boost_cpu (P : Params) (E : Env) (acc : SyncInfo × List Call) (i : Nat) :
    SyncInfo × List Call :=
  let i_sync_info := acc.1 i
  match E.cpufreq_get_policy i with
  | none => acc
  | some policy =>
    if policy.cur ≥ P.input_boost_freq then acc
    else
      (Function.update acc.1 i { i_sync_info with input_boost_min := P.input_boost_freq },
        acc.2 ++ [Call.cancel_delayed_work_sync i Work.input_boost_rem,
          Call.cpufreq_update_policy i,
          Call.queue_delayed_work_on i_sync_info.cpu i Work.input_boost_rem P.input_boost_ms])

/-- The CPUs visited by `for_each_online_cpu`, in increasing order. -/
def online_cpus (E : Env) : List Nat :=
  (List.range E.nr_cpu_ids).filter E.cpu_online

/-- Function `do_input_boost`. -/
def do_input_boost (P : Params) (E : Env) (si : SyncInfo) : SyncInfo × List Call :=
  (online_cpus E).foldl (do_input_boost_cpu P E) (si, [])

/-! ## InputBoostTrigger -/

/-- Value of the constant `USEC_PER_MSEC` (`1000L`) in `include/linux/time.h`. -/
def USEC_PER_MSEC : Nat := 1000

/-- The driver globals used by the input handler: `last_input_time` and the pending bit
of `input_boost_work`. -/
structure InputState where
  last_input_time : Nat
  work_pending : Bool
  deriving DecidableEq, Repr

/-- Function `cpuboost_input_event`. `BITS_PER_LONG` is the width of `long` on the
target, `ktime_first` and `ktime_second` are the values of `ktime_to_us(ktime_get())`
at the two places it is read, and `now_uninit` is the content of the local `now` when
the assignment to it is skipped. The statement `now = ...` is the body of the second
`if`; everything after it is executed whatever that condition says. -/
def cpuboost_input_event (P : Params) (BITS_PER_LONG : Nat)
    (ktime_first ktime_second now_uninit : Nat) (st : InputState) : InputState × List Call :=
  if P.cpu_boost = 0 then (st, [])
  else
    let now :=
      if P.input_boost_freq = 0 ∨ st.work_pending then u64 ktime_first else u64 now_uninit
    let min_interval := max P.min_input_interval P.input_boost_ms
    if u64 (now + 18446744073709551616 - u64 st.last_input_time)
        < (min_interval * USEC_PER_MSEC) % 2 ^ BITS_PER_LONG then (st, [])
    else
      ({ last_input_time := u64 ktime_second, work_pending := true },
        [Call.queue_work_input_boost])

/-! ## Runs of the engine -/

/-- The entry points of the engine that touch `sync_info`. -/
inductive Action where
  | migration (thread_is_current : Bool) (mnd : migration_notify_data)
  | worker (cpu : Nat)
  | input_boost
  | boost_rem (cpu : Nat)
  | input_boost_rem (cpu : Nat)
  deriving DecidableEq, Repr

/-- Effect of one entry point on `sync_info`. -/
def step (P : Params) (E : Env) (si : SyncInfo) : Action → SyncInfo
  | Action.migration t mnd => (boost_migration_notify P t mnd si).1
  | Action.worker cpu => (boost_sync_thread P E cpu si).1
  | Action.input_boost => (do_input_boost P E si).1
  | Action.boost_rem cpu => (do_boost_rem cpu si).1
  | Action.input_boost_rem cpu => (do_input_boost_rem cpu si).1

/-- One job of the engine: an entry point together with the values of the module
parameters it reads and what it observes of the cpufreq and hotplug subsystems. The
parameters are writable at run time and policies and online state change between jobs,
so every job has its own. -/
structure Job where
  params : Params
  env : Env
  action : Action

/-- State of `sync_info` after a sequence of jobs, starting from `si`. -/
def run (si : SyncInfo) (jobs : List Job) : SyncInfo :=
  jobs.foldl (fun s j => step j.params j.env s j.action) si

/-- The event gets past the five filters of `boost_migration_notify`, in the order the
function applies them. -/
def migration_accepted (P : Params) (thread_is_current : Bool)
    (mnd : migration_notify_data) : Bool :=
  decide (¬ (P.load_based_syncs ∧ int_to_uint mnd.load ≤ P.migration_load_threshold) ∧
    ¬ (P.load_based_syncs ∧ (mnd.load < 0 ∨ mnd.load > 100)) ∧
    ¬ (¬ P.load_based_syncs ∧ mnd.src_cpu = mnd.dest_cpu) ∧
    ¬ P.boost_ms = 0 ∧
    ¬ thread_is_current)

/-- The notifier called for each event of a sequence in turn, by callers other than the
worker thread, with no worker cycle in between. -/
def notify_all (P : Params) (es : List migration_notify_data) (si : SyncInfo) : SyncInfo :=
  es.foldl (fun s e => (boost_migration_notify P false e s).1) si

/-- The core a call is made for: the CPU re-evaluated, or the CPU whose `cpu_sync`
holds the delayed work that is cancelled or queued. -/
def Call.core : Call → Option Nat
  | Call.cpufreq_update_policy cpu => some cpu
  | Call.cancel_delayed_work_sync owner _ => some owner
  | Call.queue_delayed_work_on _ owner _ _ => some owner
  | Call.queue_work_input_boost => none
  | Call.pr_err_invalid_load _ => none

/-- The calls of a list that are made for core `c`, in order. -/
def calls_for (c : Nat) (calls : List Call) : List Call :=
  calls.filter (fun k => decide (k.core = some c))

/-- The two tests of the loop body of `do_input_boost` for core `i`: the policy query
succeeds and `policy.cur` is below `input_boost_freq`. -/
def input_boost_wanted (P : Params) (E : Env) (i : Nat) : Bool :=
  match E.cpufreq_get_policy i with
  | none => false
  | some policy => decide (¬ policy.cur ≥ P.input_boost_freq)

/-! ## Concrete scenarios -/

/-- A policy of 300..1800 with current frequency 600, owned by `cpu`. -/
def policy_1800 (cpu : Nat) : cpufreq_policy :=
  { cpuinfo := { min_freq := 300 }, cpu := cpu, min := 300, max := 1800, cur := 600 }

/-- Four CPUs, all online, all with the policy `policy_1800`. -/
def env_online : Env :=
  { cpufreq_get_policy := fun c => some (policy_1800 c), cpu_online := fun _ => true,
    nr_cpu_ids := 4 }

/-- As `env_online`, with CPU 1 offline. -/
def env_cpu1_offline : Env :=
  { cpufreq_get_policy := fun c => some (policy_1800 c), cpu_online := fun c => decide (c ≠ 1),
    nr_cpu_ids := 4 }

/-- Load-based parameters with a 20 ms migration boost and a sync cap of 800. -/
def params_cap800 : Params :=
  { Params.default with cpu_boost := 1, boost_ms := 20, sync_threshold := 800 }

/-- Load-based parameters with a 20 ms migration boost and no sync cap. -/
def params_nocap : Params :=
  { Params.default with cpu_boost := 1, boost_ms := 20, sync_threshold := 0 }

/-- Load-based parameters with `migration_load_threshold` raised to 200. -/
def params_thr200 : Params :=
  { Params.default with cpu_boost := 1, boost_ms := 20, migration_load_threshold := 200 }

/-- Records with floors 900 and 1200 on CPU 1. -/
def sync_info_floors : SyncInfo :=
  Function.update sync_info_init 1
    { sync_info_init 1 with boost_min := 900, input_boost_min := 1200 }

/-- Records with a pending request on CPU 1 from CPU 0 carrying a load of 50. -/
def sync_info_pending50 : SyncInfo :=
  Function.update sync_info_init 1
    { sync_info_init 1 with pending := true, src_cpu := 0, task_load := 50 }

/-- Load-based parameters with an input-boost target of 1200. -/
def params_input1200 : Params :=
  { Params.default with cpu_boost := 1, boost_ms := 20, input_boost_freq := 1200 }

/-- Boosting enabled with no input-boost target configured. -/
def params_input_unset : Params :=
  { Params.default with cpu_boost := 1, boost_ms := 20, input_boost_freq := 0 }

/-- Four possible CPUs: CPU 0 online at 600, CPU 1 offline, CPU 2 online with a failing
policy query, CPU 3 online at 1500. -/
def env_mixed : Env :=
  { cpufreq_get_policy := fun c =>
      if c = 2 then none
      else if c = 3 then
        some { cpuinfo := { min_freq := 300 }, cpu := 3, min := 300, max := 1800, cur := 1500 }
      else some (policy_1800 c),
    cpu_online := fun c => decide (c ≠ 1),
    nr_cpu_ids := 4 }

theorem int_to_uint_of_range (i : Int) (h0 : 0 ≤ i) (h1 : i < 4294967296) :
    (int_to_uint i : Int) = i := by
  unfold int_to_uint
  rw [Int.emod_eq_of_lt h0 h1]
  exact Int.toNat_of_nonneg h0

theorem u32_le (n : Nat) : u32 n ≤ n := Nat.mod_le _ _

theorem u32_of_lt (n : Nat) (h : n < 4294967296) : u32 n = n := Nat.mod_eq_of_lt h

theorem u32_scaled_le (m l : Nat) (hl : l ≤ 100) : u32 (m * l) / 100 ≤ m := by
  apply Nat.div_le_of_le_mul
  calc u32 (m * l) ≤ m * l := u32_le _
    _ ≤ m * 100 := Nat.mul_le_mul_left m hl
    _ = 100 * m := Nat.mul_comm _ _

/-- The worker touches no record but its own. -/
theorem run_boost_migration_other (P : Params) (E : Env) (cpu : Nat) (si : SyncInfo)
    (c : Nat) (hc : c ≠ cpu) : (run_boost_migration P E cpu si).1 c = si c := by
  unfold run_boost_migration
  dsimp only
  cases E.cpufreq_get_policy (si cpu).src_cpu with
  | none => exact Function.update_noteq hc _ _
  | some sp =>
    cases E.cpufreq_get_policy cpu with
    | none => exact Function.update_noteq hc _ _
    | some dp =>
      dsimp only
      split_ifs <;> simp [Function.update_noteq hc]

/-- In its own record the worker clears `pending` and may rewrite `boost_min`; the other
fields keep their values. -/
theorem run_boost_migration_own (P : Params) (E : Env) (cpu : Nat) (si : SyncInfo) :
    (run_boost_migration P E cpu si).1 cpu =
      { si cpu with
        pending := false
        boost_min := ((run_boost_migration P E cpu si).1 cpu).boost_min } := by
  unfold run_boost_migration
  dsimp only
  cases E.cpufreq_get_policy (si cpu).src_cpu with
  | none => simp
  | some sp =>
    cases E.cpufreq_get_policy cpu with
    | none => simp
    | some dp =>
      dsimp only
      split_ifs <;> simp

/-- With a lower limit `m` no larger than the policy maximum and no upper limit, the
kernel helper only raises `min` to `m`. -/
theorem verify_within_limits_raise (policy : cpufreq_policy) (m : Nat)
    (hwf : policy.min ≤ policy.max) (hm : m ≤ policy.max) (hmax : policy.max ≤ UINT_MAX) :
    cpufreq_verify_within_limits policy m UINT_MAX = { policy with min := max policy.min m } := by
  obtain ⟨ci, c, pmin, pmax, cur⟩ := policy
  simp only at hwf hm hmax
  have h2 : ¬ pmax < m := by omega
  have h3 : ¬ UINT_MAX < m := by omega
  have h4 : ¬ UINT_MAX < pmax := by omega
  have h5 : ¬ UINT_MAX < pmin := by omega
  by_cases h1 : pmin < m
  · have e : max pmin m = m := max_eq_right (le_of_lt h1)
    simp [cpufreq_verify_within_limits, h1, h2, h3, h4, e]
  · have e : max pmin m = pmin := max_eq_left (by omega)
    have h6 : ¬ pmax < pmin := by omega
    simp [cpufreq_verify_within_limits, h1, h2, h4, h5, h6, e]

/-- C1: on a `CPUFREQ_ADJUST` event, for a proposed policy with `min <= max` (an
`unsigned int` maximum) and any two floors of the policy's core, `boost_adjust_notify`
leaves `max` and every field other than `min` as they were and sets `min` to
`max(policy.min, min(max(boost_min, input_boost_min), policy.max))`; with both floors 0
the policy comes back unchanged. -/
theorem boost_adjust_notify_clamp (si : SyncInfo) (policy : cpufreq_policy)
    (hwf : policy.min ≤ policy.max) (hmax : policy.max ≤ UINT_MAX) :
    boost_adjust_notify si CPUFREQ_ADJUST policy =
      { policy with
        min := max policy.min
          (min (max (si policy.cpu).boost_min (si policy.cpu).input_boost_min) policy.max) } ∧
    (boost_adjust_notify si CPUFREQ_ADJUST policy).max = policy.max ∧
    ((si policy.cpu).boost_min = 0 ∧ (si policy.cpu).input_boost_min = 0 →
      boost_adjust_notify si CPUFREQ_ADJUST policy = policy) := by
  have key : boost_adjust_notify si CPUFREQ_ADJUST policy =
      { policy with
        min := max policy.min
          (min (max (si policy.cpu).boost_min (si policy.cpu).input_boost_min) policy.max) } := by
    unfold boost_adjust_notify
    simp only [ne_eq, not_true_eq_false, if_false]
    by_cases hz : (si policy.cpu).boost_min = 0 ∧ (si policy.cpu).input_boost_min = 0
    · rw [if_pos hz]
      obtain ⟨hb, hi⟩ := hz
      rw [hb, hi]
      simp
    · rw [if_neg hz]
      exact verify_within_limits_raise policy _ hwf (Nat.min_le_right _ _) hmax
  refine ⟨key, ?_, ?_⟩
  · rw [key]
  · rintro ⟨hb, hi⟩
    rw [key, hb, hi]
    simp

/-- Witness for C1: the policy 300..1800 of CPU 1 with floors 900 and 1200 gets
`min = 1200`. -/
theorem boost_adjust_notify_clamp_witness :
    (policy_1800 1).min ≤ (policy_1800 1).max ∧ (policy_1800 1).max ≤ UINT_MAX ∧
    (boost_adjust_notify sync_info_floors CPUFREQ_ADJUST (policy_1800 1)).min = 1200 := by
  refine ⟨by decide, by decide, ?_⟩
  rw [(boost_adjust_notify_clamp sync_info_floors (policy_1800 1) (by decide) (by decide)).1]
  decide

/-! ## MigrationBoostCoordinator: filtering -/

/-- C2: `boost_migration_notify` leaves `sync_info` untouched when load-based mode is on
and the load is at most `migration_load_threshold`, or load-based mode is on and the load
is outside `[0,100]`, or load-based mode is off and source and destination coincide, or
`boost_ms` is 0; when none of these holds and the caller is not the worker thread, the
destination record gets `pending = true`, `src_cpu = mnd.src_cpu` and
`task_load = (load_based_syncs ? load : 0)`, its floors and `cpu` stay as they were and
no other record changes. -/
theorem boost_migration_notify_filter (P : Params) (t : Bool) (mnd : migration_notify_data)
    (si : SyncInfo) :
    (((P.load_based_syncs = true ∧ mnd.load ≤ (P.migration_load_threshold : Int)) ∨
      (P.load_based_syncs = true ∧ (mnd.load < 0 ∨ 100 < mnd.load)) ∨
      (P.load_based_syncs = false ∧ mnd.src_cpu = mnd.dest_cpu) ∨
      P.boost_ms = 0) →
        (boost_migration_notify P t mnd si).1 = si) ∧
    (¬ ((P.load_based_syncs = true ∧ mnd.load ≤ (P.migration_load_threshold : Int)) ∨
        (P.load_based_syncs = true ∧ (mnd.load < 0 ∨ 100 < mnd.load)) ∨
        (P.load_based_syncs = false ∧ mnd.src_cpu = mnd.dest_cpu) ∨
        P.boost_ms = 0) → t = false →
      ((boost_migration_notify P t mnd si).1 mnd.dest_cpu).pending = true ∧
      ((boost_migration_notify P t mnd si).1 mnd.dest_cpu).src_cpu = mnd.src_cpu ∧
      (((boost_migration_notify P t mnd si).1 mnd.dest_cpu).task_load : Int) =
        (if P.load_based_syncs = true then mnd.load else 0) ∧
      ((boost_migration_notify P t mnd si).1 mnd.dest_cpu).boost_min =
        (si mnd.dest_cpu).boost_min ∧
      ((boost_migration_notify P t mnd si).1 mnd.dest_cpu).input_boost_min =
        (si mnd.dest_cpu).input_boost_min ∧
      ((boost_migration_notify P t mnd si).1 mnd.dest_cpu).cpu = (si mnd.dest_cpu).cpu ∧
      ∀ c, c ≠ mnd.dest_cpu → (boost_migration_notify P t mnd si).1 c = si c) := by
  obtain ⟨src, dest, load⟩ := mnd
  dsimp only
  constructor
  · intro h
    unfold boost_migration_notify
    dsimp only
    by_cases h1 : P.load_based_syncs = true ∧ int_to_uint load ≤ P.migration_load_threshold
    · rw [if_pos h1]
    rw [if_neg h1]
    by_cases h2 : P.load_based_syncs = true ∧ (load < 0 ∨ load > 100)
    · rw [if_pos h2]
    rw [if_neg h2]
    by_cases h3 : ¬ P.load_based_syncs = true ∧ src = dest
    · rw [if_pos h3]
    rw [if_neg h3]
    by_cases h4 : P.boost_ms = 0
    · rw [if_pos h4]
    exfalso
    simp only [int_to_uint] at h1
    rcases h with ⟨hl, hle⟩ | ⟨hl, hout⟩ | ⟨hl, he⟩ | hb
    · rw [hl] at h1 h2
      simp only [true_and] at h1 h2
      omega
    · rw [hl] at h2
      simp only [true_and] at h2
      exact h2 (by omega)
    · rw [hl] at h3
      exact h3 ⟨by simp, he⟩
    · exact h4 hb
  · intro h ht
    subst ht
    simp only [not_or, not_and] at h
    obtain ⟨ha, hb, hc, hd⟩ := h
    unfold boost_migration_notify
    simp only [int_to_uint]
    cases hl : P.load_based_syncs
    · have hne : src ≠ dest := hc hl
      simp [hne, hd]
      intro c hcne
      exact Function.update_noteq hcne _ _
    · have h1 := ha hl
      have h2 := hb hl
      have h3 : ¬ (load % 4294967296).toNat ≤ P.migration_load_threshold := by omega
      have h4 : ¬ (load < 0 ∨ load > 100) := by omega
      simp only [true_and, h3, h4, if_false, hd, Bool.false_eq_true, not_true_eq_false,
        false_and, if_true, Function.update_same]
      refine ⟨by omega, ?_⟩
      intro c hcne
      exact Function.update_noteq hcne _ _

/-- Witness for C2: with the default threshold 30, a load-50 migration 0 -> 1 is
recorded on the initial records, and a load-20 one is filtered. -/
theorem boost_migration_notify_filter_witness :
    ((boost_migration_notify params_nocap false ⟨0, 1, 20⟩ sync_info_init).1 = sync_info_init) ∧
    ((boost_migration_notify params_nocap false ⟨0, 1, 50⟩ sync_info_init).1 1).pending
      = true := by
  refine ⟨?_, ?_⟩
  · exact (boost_migration_notify_filter params_nocap false ⟨0, 1, 20⟩ sync_info_init).1
      (Or.inl ⟨rfl, by decide⟩)
  · exact ((boost_migration_notify_filter params_nocap false ⟨0, 1, 50⟩ sync_info_init).2
      (by decide) rfl).1

/-! ## MigrationBoostCoordinator: load validation -/

/-- C3, counterexample: with load-based mode on and `migration_load_threshold = 200`, the
out-of-range load 150 is dropped by the low-load filter, which comes first, and no
validation error is reported. -/
theorem invalid_load_silent_counterexample :
    params_thr200.load_based_syncs = true ∧
    ((100 : Int) < (⟨0, 1, 150⟩ : migration_notify_data).load) ∧
    (boost_migration_notify params_thr200 false ⟨0, 1, 150⟩ sync_info_init).2 = [] := by
  refine ⟨rfl, by decide, by decide⟩

/-- C3, amended: with load-based mode on, a migration event whose load is outside
`[0,100]` never changes `sync_info`; the validation error is reported exactly when the
load, converted to `unsigned int`, is above `migration_load_threshold`, and otherwise the
event is dropped silently by the low-load filter. -/
theorem boost_migration_notify_invalid_load (P : Params) (t : Bool)
    (mnd : migration_notify_data) (si : SyncInfo)
    (hlb : P.load_based_syncs = true) (hout : mnd.load < 0 ∨ 100 < mnd.load) :
    (boost_migration_notify P t mnd si).1 = si ∧
    (P.migration_load_threshold < int_to_uint mnd.load →
      (boost_migration_notify P t mnd si).2 = [Call.pr_err_invalid_load mnd.load]) ∧
    (int_to_uint mnd.load ≤ P.migration_load_threshold →
      (boost_migration_notify P t mnd si).2 = []) := by
  unfold boost_migration_notify
  dsimp only
  by_cases h1 : int_to_uint mnd.load ≤ P.migration_load_threshold
  · rw [if_pos ⟨hlb, h1⟩]
    exact ⟨rfl, fun h => absurd h1 (by omega), fun _ => rfl⟩
  · rw [if_neg (fun h => h1 h.2), if_pos ⟨hlb, hout⟩]
    exact ⟨rfl, fun _ => rfl, fun h => absurd h h1⟩

/-- Witness for C3: with the default threshold 30 the loads 150 and -5 are reported and
leave the records alone. -/
theorem boost_migration_notify_invalid_load_witness :
    boost_migration_notify params_nocap false ⟨0, 1, 150⟩ sync_info_init =
        (sync_info_init, [Call.pr_err_invalid_load 150]) ∧
    (boost_migration_notify params_nocap false ⟨0, 1, -5⟩ sync_info_init).2 =
        [Call.pr_err_invalid_load (-5)] := by
  have h := boost_migration_notify_invalid_load params_nocap false ⟨0, 1, 150⟩ sync_info_init
    rfl (Or.inr (by decide))
  have g := boost_migration_notify_invalid_load params_nocap false ⟨0, 1, -5⟩ sync_info_init
    rfl (Or.inl (by decide))
  exact ⟨Prod.ext h.1 (h.2.1 (by decide)), g.2.1 (by decide)⟩

/-! ## BoostWorker -/

/-- C4: when both policy queries succeed, the destination is online and the raw request
`raw = (load_based_syncs ? dest_policy.max * task_load / 100 : src_policy.cur)`, computed
in `unsigned int`, is above `dest_policy.cpuinfo.min_freq`, the worker leaves
`boost_min = min(sync_threshold, raw)` if `sync_threshold != 0` and `boost_min = raw`
otherwise; the raw request is the exact quotient whenever the product fits 32 bits. -/
theorem run_boost_migration_cap (P : Params) (E : Env) (cpu : Nat) (si : SyncInfo)
    (sp dp : cpufreq_policy) (raw : Nat)
    (hs : E.cpufreq_get_policy (si cpu).src_cpu = some sp)
    (hd : E.cpufreq_get_policy cpu = some dp)
    (hon : E.cpu_online cpu = true)
    (hraw : raw = if P.load_based_syncs = true then u32 (dp.max * (si cpu).task_load) / 100
      else sp.cur)
    (hmin : dp.cpuinfo.min_freq < raw) :
    ((run_boost_migration P E cpu si).1 cpu).boost_min =
      (if P.sync_threshold ≠ 0 then min P.sync_threshold raw else raw) ∧
    (dp.max * (si cpu).task_load < 4294967296 → P.load_based_syncs = true →
      raw = dp.max * (si cpu).task_load / 100) := by
  constructor
  · unfold run_boost_migration
    simp only [hs, hd, hon, ← hraw, if_neg (not_le.mpr hmin), if_true, Function.update_same]
  · intro hfit hl
    rw [hraw, if_pos hl, u32_of_lt _ hfit]

/-- Witness for C4: load-based, `dest_policy.max = 1800` and `task_load = 50` give the raw
request 900; the floor is 800 under a cap of 800 and 900 without a cap. -/
theorem run_boost_migration_cap_witness :
    ((run_boost_migration params_cap800 env_online 1 sync_info_pending50).1 1).boost_min = 800 ∧
    ((run_boost_migration params_nocap env_online 1 sync_info_pending50).1 1).boost_min = 900 := by
  have h := run_boost_migration_cap params_cap800 env_online 1 sync_info_pending50
    (policy_1800 0) (policy_1800 1) 900 rfl rfl rfl (by decide) (by decide)
  have g := run_boost_migration_cap params_nocap env_online 1 sync_info_pending50
    (policy_1800 0) (policy_1800 1) 900 rfl rfl rfl (by decide) (by decide)
  exact ⟨h.1.trans (by decide), g.1.trans (by decide)⟩

/-! ## Floor bound -/

/-- The notifier changes at most the destination record, and there only `pending`,
`src_cpu` and `task_load`, the latter to a percentage. -/
theorem boost_migration_notify_shape (P : Params) (t : Bool) (mnd : migration_notify_data)
    (si : SyncInfo) :
    (boost_migration_notify P t mnd si).1 = si ∨
    ∃ tl, tl ≤ 100 ∧ (P.load_based_syncs = false → tl = 0) ∧
      (boost_migration_notify P t mnd si).1 =
        Function.update si mnd.dest_cpu
          { si mnd.dest_cpu with pending := true, src_cpu := mnd.src_cpu, task_load := tl } := by
  unfold boost_migration_notify
  dsimp only
  by_cases h1 : P.load_based_syncs = true ∧ int_to_uint mnd.load ≤ P.migration_load_threshold
  · rw [if_pos h1]; exact Or.inl rfl
  rw [if_neg h1]
  by_cases h2 : P.load_based_syncs = true ∧ (mnd.load < 0 ∨ mnd.load > 100)
  · rw [if_pos h2]; exact Or.inl rfl
  rw [if_neg h2]
  by_cases h3 : ¬ P.load_based_syncs = true ∧ mnd.src_cpu = mnd.dest_cpu
  · rw [if_pos h3]; exact Or.inl rfl
  rw [if_neg h3]
  by_cases h4 : P.boost_ms = 0
  · rw [if_pos h4]; exact Or.inl rfl
  rw [if_neg h4]
  by_cases h5 : t = true
  · rw [if_pos h5]; exact Or.inl rfl
  rw [if_neg h5]
  right
  refine ⟨if P.load_based_syncs = true then int_to_uint mnd.load else 0, ?_, ?_, rfl⟩
  · by_cases hl : P.load_based_syncs = true
    · rw [if_pos hl]
      have h2b : ¬ (mnd.load < 0 ∨ mnd.load > 100) := fun h => h2 ⟨hl, h⟩
      unfold int_to_uint
      omega
    · rw [if_neg hl]; omega
  · intro hl
    rw [if_neg (by simp [hl])]

/-- One pass of the input-boost loop changes at most `input_boost_min` of the visited
core, to the target, and only if the core's policy was read with `cur` below it. -/
theorem do_input_boost_cpu_shape (P : Params) (E : Env) (acc : SyncInfo × List Call)
    (i : Nat) (c : Nat) :
    (do_input_boost_cpu P E acc i).1 c = acc.1 c ∨
    (c = i ∧ ∃ p, E.cpufreq_get_policy c = some p ∧ p.cur < P.input_boost_freq ∧
      (do_input_boost_cpu P E acc i).1 c =
        { acc.1 c with input_boost_min := P.input_boost_freq }) := by
  unfold do_input_boost_cpu
  dsimp only
  cases hp : E.cpufreq_get_policy i with
  | none => exact Or.inl rfl
  | some p =>
    dsimp only
    by_cases hcur : p.cur ≥ P.input_boost_freq
    · rw [if_pos hcur]; exact Or.inl rfl
    · rw [if_neg hcur]
      by_cases hci : c = i
      · subst hci
        right
        exact ⟨rfl, p, hp, by omega, by simp⟩
      · left
        exact Function.update_noteq hci _ _

/-- The loop of `do_input_boost` over any list of cores: each record is left alone or
gets `input_boost_min` set to the target for a core whose policy was read. -/
theorem do_input_boost_fold_shape (P : Params) (E : Env) (l : List Nat)
    (acc : SyncInfo × List Call) (c : Nat) :
    (l.foldl (do_input_boost_cpu P E) acc).1 c = acc.1 c ∨
    (c ∈ l ∧ ∃ p, E.cpufreq_get_policy c = some p ∧ p.cur < P.input_boost_freq ∧
      (l.foldl (do_input_boost_cpu P E) acc).1 c =
        { acc.1 c with input_boost_min := P.input_boost_freq }) := by
  induction l generalizing acc with
  | nil => exact Or.inl rfl
  | cons i l ih =>
    rw [List.foldl_cons]
    rcases ih (do_input_boost_cpu P E acc i) with h | ⟨hm, p, hp, hcur, h⟩
    · rcases do_input_boost_cpu_shape P E acc i c with g | ⟨hci, p, hp, hcur, g⟩
      · left; rw [h, g]
      · right
        exact ⟨by simp [hci], p, hp, hcur, by rw [h, g]⟩
    · right
      refine ⟨List.mem_cons_of_mem _ hm, p, hp, hcur, ?_⟩
      rw [h]
      rcases do_input_boost_cpu_shape P E acc i c with g | ⟨_, _, _, _, g⟩
      · rw [g]
      · rw [g]

/-- An accepted event is recorded in the destination record. -/
theorem boost_migration_notify_accepted (P : Params) (t : Bool) (mnd : migration_notify_data)
    (si : SyncInfo) (h : migration_accepted P t mnd = true) :
    boost_migration_notify P t mnd si =
      (Function.update si mnd.dest_cpu
        { si mnd.dest_cpu with
          pending := true
          src_cpu := mnd.src_cpu
          task_load := if P.load_based_syncs then int_to_uint mnd.load else 0 }, []) := by
  simp only [migration_accepted, decide_eq_true_eq] at h
  obtain ⟨h1, h2, h3, h4, h5⟩ := h
  unfold boost_migration_notify
  dsimp only
  rw [if_neg h1, if_neg h2, if_neg h3, if_neg h4, if_neg h5]

/-- A run of accepted events for one destination only rewrites `pending`, `src_cpu` and
`task_load` of that destination. -/
theorem notify_all_shape (P : Params) (d : Nat) (es : List migration_notify_data)
    (si : SyncInfo) (hdest : ∀ e ∈ es, e.dest_cpu = d)
    (hacc : ∀ e ∈ es, migration_accepted P false e = true) :
    ∃ pe sc tl, notify_all P es si =
      Function.update si d { si d with pending := pe, src_cpu := sc, task_load := tl } := by
  induction es generalizing si with
  | nil => exact ⟨(si d).pending, (si d).src_cpu, (si d).task_load, by simp [notify_all]⟩
  | cons e es ih =>
    have he := hdest e (List.mem_cons_self _ _)
    have ha := hacc e (List.mem_cons_self _ _)
    obtain ⟨pe, sc, tl, h⟩ := ih (boost_migration_notify P false e si).1
      (fun x hx => hdest x (List.mem_cons_of_mem _ hx))
      (fun x hx => hacc x (List.mem_cons_of_mem _ hx))
    refine ⟨pe, sc, tl, ?_⟩
    simp only [notify_all, List.foldl_cons] at h ⊢
    rw [h, boost_migration_notify_accepted P false e si ha, he]
    simp

/-- C6: after a non-empty sequence of accepted migration events for one destination,
with no worker cycle in between, `sync_info` is what the last event alone would have
left: the destination record is pending with the `src_cpu` and `task_load` of the last
event. The worker cycle that follows therefore computes exactly what it would compute
after the last event alone, it leaves `pending` false, and the thread does not run
again. -/
theorem migration_coalescing (P : Params) (E : Env) (d : Nat)
    (es : List migration_notify_data) (si : SyncInfo) (hne : es ≠ [])
    (hdest : ∀ e ∈ es, e.dest_cpu = d)
    (hacc : ∀ e ∈ es, migration_accepted P false e = true) :
    notify_all P es si = (boost_migration_notify P false (es.getLast hne) si).1 ∧
    (notify_all P es si d).pending = true ∧
    (notify_all P es si d).src_cpu = (es.getLast hne).src_cpu ∧
    (notify_all P es si d).task_load =
      (if P.load_based_syncs then int_to_uint (es.getLast hne).load else 0) ∧
    boost_sync_thread P E d (notify_all P es si) =
      run_boost_migration P E d (boost_migration_notify P false (es.getLast hne) si).1 ∧
    ((boost_sync_thread P E d (notify_all P es si)).1 d).pending = false ∧
    boost_migration_should_run d (boost_sync_thread P E d (notify_all P es si)).1 = false := by
  obtain ⟨init, last, rfl⟩ : ∃ init last, es = init ++ [last] := by
    rcases List.eq_nil_or_concat es with h | ⟨init, last, h⟩
    · exact absurd h hne
    · exact ⟨init, last, by rw [h, List.concat_eq_append]⟩
  have hlast : (init ++ [last]).getLast hne = last := List.getLast_append_singleton _
  rw [hlast]
  have hd := hdest last (by simp)
  have ha := hacc last (by simp)
  obtain ⟨pe, sc, tl, hinit⟩ := notify_all_shape P d init si
    (fun x hx => hdest x (by simp [hx])) (fun x hx => hacc x (by simp [hx]))
  have key : notify_all P (init ++ [last]) si = (boost_migration_notify P false last si).1 := by
    have hs : notify_all P (init ++ [last]) si =
        (boost_migration_notify P false last (notify_all P init si)).1 := by
      simp [notify_all, List.foldl_append]
    rw [hs, hinit, boost_migration_notify_accepted P false last _ ha,
      boost_migration_notify_accepted P false last si ha, hd]
    simp
  have hrec : (boost_migration_notify P false last si).1 d =
      { si d with
        pending := true
        src_cpu := last.src_cpu
        task_load := if P.load_based_syncs then int_to_uint last.load else 0 } := by
    rw [boost_migration_notify_accepted P false last si ha, hd]
    simp
  have hrun : boost_sync_thread P E d (boost_migration_notify P false last si).1 =
      run_boost_migration P E d (boost_migration_notify P false last si).1 := by
    unfold boost_sync_thread boost_migration_should_run
    rw [hrec]
    simp
  rw [key, hrun]
  refine ⟨rfl, ?_, ?_, ?_, rfl, ?_, ?_⟩
  · rw [hrec]
  · rw [hrec]
  · rw [hrec]
  · rw [run_boost_migration_own]
  · unfold boost_migration_should_run
    rw [run_boost_migration_own]

/-- Witness for C6: three accepted migrations to CPU 1; the worker sees the last one,
from CPU 3 with load 50. -/
theorem migration_coalescing_witness :
    (notify_all params_nocap [⟨0, 1, 90⟩, ⟨2, 1, 70⟩, ⟨3, 1, 50⟩] sync_info_init 1).src_cpu = 3 ∧
    (notify_all params_nocap [⟨0, 1, 90⟩, ⟨2, 1, 70⟩, ⟨3, 1, 50⟩] sync_info_init 1).task_load
      = 50 ∧
    ((boost_sync_thread params_nocap env_online 1
      (notify_all params_nocap [⟨0, 1, 90⟩, ⟨2, 1, 70⟩, ⟨3, 1, 50⟩] sync_info_init)).1
        1).pending = false := by
  have h := migration_coalescing params_nocap env_online 1
    [⟨0, 1, 90⟩, ⟨2, 1, 70⟩, ⟨3, 1, 50⟩] sync_info_init (by simp) (by decide) (by decide)
  exact ⟨h.2.2.1, h.2.2.2.1.trans (by decide), h.2.2.2.2.2.1⟩

/-! ## BoostWorker: aborted and offline cycles -/

/-- C7: when both policy queries succeed and the requested frequency
`(load_based_syncs ? dest_policy.max * task_load / 100 : src_policy.cur)` is at most
`dest_policy.cpuinfo.min_freq`, the worker cycle makes no call at all (no policy
re-evaluation, no timer cancelled or scheduled) and leaves both floors of every core as
they were. -/
theorem run_boost_migration_below_min (P : Params) (E : Env) (cpu : Nat) (si : SyncInfo)
    (sp dp : cpufreq_policy)
    (hs : E.cpufreq_get_policy (si cpu).src_cpu = some sp)
    (hd : E.cpufreq_get_policy cpu = some dp)
    (hle : (if P.load_based_syncs = true then u32 (dp.max * (si cpu).task_load) / 100
      else sp.cur) ≤ dp.cpuinfo.min_freq) :
    (run_boost_migration P E cpu si).2 = [] ∧
    ∀ c, ((run_boost_migration P E cpu si).1 c).boost_min = (si c).boost_min ∧
      ((run_boost_migration P E cpu si).1 c).input_boost_min = (si c).input_boost_min := by
  have key : run_boost_migration P E cpu si =
      (Function.update si cpu { si cpu with pending := false }, []) := by
    unfold run_boost_migration
    simp only [hs, hd, if_pos hle]
  rw [key]
  refine ⟨rfl, fun c => ?_⟩
  by_cases hc : c = cpu
  · subst hc
    simp
  · simp [Function.update_noteq hc]

/-- Witness for C7: a pending request with load 10 on a 300..1800 policy asks for 180,
below the supported minimum 300. -/
theorem run_boost_migration_below_min_witness :
    (run_boost_migration params_nocap env_online 1
      (Function.update sync_info_floors 1
        { sync_info_floors 1 with pending := true, task_load := 10 })).2 = [] ∧
    ((run_boost_migration params_nocap env_online 1
      (Function.update sync_info_floors 1
        { sync_info_floors 1 with pending := true, task_load := 10 })).1 1).boost_min = 900 := by
  have h := run_boost_migration_below_min params_nocap env_online 1
    (Function.update sync_info_floors 1
      { sync_info_floors 1 with pending := true, task_load := 10 })
    (policy_1800 0) (policy_1800 1) rfl rfl (by decide)
  exact ⟨h.1, (h.2 1).1.trans (by decide)⟩

/-- C8: when both policy queries succeed, the requested frequency is above
`dest_policy.cpuinfo.min_freq` and the destination core is offline, the cycle ends with
`boost_min = 0` for that core; its calls are the cancellation of the pending decay work
and, if the source core is online, a re-evaluation of the source, so no delayed work is
queued and no re-evaluation is requested for the destination. -/
theorem run_boost_migration_offline (P : Params) (E : Env) (cpu : Nat) (si : SyncInfo)
    (sp dp : cpufreq_policy)
    (hs : E.cpufreq_get_policy (si cpu).src_cpu = some sp)
    (hd : E.cpufreq_get_policy cpu = some dp)
    (hgt : dp.cpuinfo.min_freq <
      (if P.load_based_syncs = true then u32 (dp.max * (si cpu).task_load) / 100
        else sp.cur))
    (hoff : E.cpu_online cpu = false) :
    ((run_boost_migration P E cpu si).1 cpu).boost_min = 0 ∧
    (run_boost_migration P E cpu si).2 =
      Call.cancel_delayed_work_sync cpu Work.boost_rem ::
        (if E.cpu_online (si cpu).src_cpu = true
          then [Call.cpufreq_update_policy (si cpu).src_cpu] else []) ∧
    (∀ c o w ms, Call.queue_delayed_work_on c o w ms ∉ (run_boost_migration P E cpu si).2) ∧
    Call.cpufreq_update_policy cpu ∉ (run_boost_migration P E cpu si).2 := by
  have key : run_boost_migration P E cpu si =
      (Function.update si cpu { si cpu with pending := false, boost_min := 0 },
        Call.cancel_delayed_work_sync cpu Work.boost_rem ::
          (if E.cpu_online (si cpu).src_cpu = true
            then [Call.cpufreq_update_policy (si cpu).src_cpu] else [])) := by
    unfold run_boost_migration
    simp only [hs, hd, if_neg (not_le.mpr hgt), hoff]
    simp
  rw [key]
  refine ⟨by simp, rfl, ?_, ?_⟩
  · intro c o w ms
    split_ifs <;> simp
  · split_ifs with h
    · have hne : (si cpu).src_cpu ≠ cpu := by
        intro e
        rw [e, hoff] at h
        exact Bool.false_ne_true h
      simp [Ne.symm hne]
    · simp

/-- Witness for C8: CPU 1 offline with a pending load-50 request from CPU 0. -/
theorem run_boost_migration_offline_witness :
    ((run_boost_migration params_nocap env_cpu1_offline 1 sync_info_pending50).1 1).boost_min
      = 0 ∧
    (run_boost_migration params_nocap env_cpu1_offline 1 sync_info_pending50).2 =
      [Call.cancel_delayed_work_sync 1 Work.boost_rem, Call.cpufreq_update_policy 0] := by
  have h := run_boost_migration_offline params_nocap env_cpu1_offline 1 sync_info_pending50
    (policy_1800 0) (policy_1800 1) rfl rfl (by decide) rfl
  exact ⟨h.1, h.2.1.trans (by decide)⟩

/-! ## BoostExpiryScheduler -/

/-- Field `cpu` of every record keeps the value given by `cpu_boost_init`. -/
theorem step_cpu (P : Params) (E : Env) (si : SyncInfo) (a : Action) (c : Nat) :
    (step P E si a c).cpu = (si c).cpu := by
  cases a with
  | migration t mnd =>
    simp only [step]
    rcases boost_migration_notify_shape P t mnd si with h | ⟨tl, _, _, h⟩
    · rw [h]
    · rw [h]
      by_cases hc : c = mnd.dest_cpu
      · subst hc; simp
      · rw [Function.update_noteq hc]
  | worker cpu =>
    simp only [step, boost_sync_thread]
    split_ifs
    · by_cases hc : c = cpu
      · subst hc; rw [run_boost_migration_own]
      · rw [run_boost_migration_other P E cpu si c hc]
    · rfl
  | input_boost =>
    simp only [step, do_input_boost]
    rcases do_input_boost_fold_shape P E (online_cpus E) (si, []) c with h | ⟨_, _, _, _, h⟩
    · rw [h]
    · rw [h]
  | boost_rem cpu =>
    simp only [step, do_boost_rem]
    by_cases hc : c = cpu
    · subst hc; simp
    · rw [Function.update_noteq hc]
  | input_boost_rem cpu =>
    simp only [step, do_input_boost_rem]
    by_cases hc : c = cpu
    · subst hc; simp
    · rw [Function.update_noteq hc]

theorem run_cpu (jobs : List Job) (si : SyncInfo) (c : Nat) :
    (run si jobs c).cpu = (si c).cpu := by
  induction jobs generalizing si with
  | nil => rfl
  | cons j jobs ih =>
    simp only [run, List.foldl_cons]
    exact (ih (step j.params j.env si j.action)).trans (step_cpu j.params j.env si j.action c)

/-- C9: for the record of core `c` as initialised by `cpu_boost_init` (`s->cpu = c`),
whatever its other fields hold, `do_boost_rem` sets `boost_min` to 0, keeps
`input_boost_min`, `pending`, `src_cpu` and `task_load`, keeps every other record, and
requests exactly one policy re-evaluation, for core `c`; `do_input_boost_rem` does the
same with `input_boost_min` in place of `boost_min`. -/
theorem decay_clears_one_floor (si : SyncInfo) (c : Nat) (hcpu : (si c).cpu = c) :
    ((do_boost_rem c si).1 c = { si c with boost_min := 0 } ∧
      (∀ k, k ≠ c → (do_boost_rem c si).1 k = si k) ∧
      (do_boost_rem c si).2 = [Call.cpufreq_update_policy c]) ∧
    ((do_input_boost_rem c si).1 c = { si c with input_boost_min := 0 } ∧
      (∀ k, k ≠ c → (do_input_boost_rem c si).1 k = si k) ∧
      (do_input_boost_rem c si).2 = [Call.cpufreq_update_policy c]) := by
  unfold do_boost_rem do_input_boost_rem
  simp only [hcpu, Function.update_same, true_and, and_true]
  exact ⟨fun k hk => Function.update_noteq hk _ _, fun k hk => Function.update_noteq hk _ _⟩

/-- Witness for C9: the decay works of CPU 1 on records with floors 900 and 1200. -/
theorem decay_clears_one_floor_witness :
    (do_boost_rem 1 sync_info_floors).1 1 =
      { cpu := 1, pending := false, src_cpu := 0, boost_min := 0, input_boost_min := 1200,
        task_load := 0 } ∧
    (do_input_boost_rem 1 sync_info_floors).1 1 =
      { cpu := 1, pending := false, src_cpu := 0, boost_min := 900, input_boost_min := 0,
        task_load := 0 } ∧
    (do_boost_rem 1 sync_info_floors).2 = [Call.cpufreq_update_policy 1] := by
  have h := decay_clears_one_floor sync_info_floors 1 rfl
  exact ⟨h.1.1.trans (by decide), h.2.1.trans (by decide), h.1.2.2⟩

/-! ## InputBoostTrigger -/

/-- C10, the code at the failing inputs: with boosting enabled, 1 s after the last
accepted event, the handler queues the input-boost job and moves `last_input_time`
although no target frequency is configured; and with a target configured and the job
already pending it still calls `queue_work` and moves `last_input_time`. -/
theorem input_event_guard_not_enforced :
    cpuboost_input_event params_input_unset 32 1000000 1000000 0
        { last_input_time := 0, work_pending := false } =
      ({ last_input_time := 1000000, work_pending := true }, [Call.queue_work_input_boost]) ∧
    cpuboost_input_event params_input1200 32 1000000 1000000 0
        { last_input_time := 0, work_pending := true } =
      ({ last_input_time := 1000000, work_pending := true }, [Call.queue_work_input_boost]) := by
  decide

/-- C11, the code at the failing inputs: with boosting enabled, the target 1200
configured, `min_input_interval = 150`, `input_boost_ms = 40` and no job pending, the
assignment to `now` is skipped and the debounce test reads the uninitialised local. An
event 1000 ms after the last accepted one is dropped when `now` happens to hold 0, and an
event 100 ms after the last accepted one is accepted when `now` happens to hold
2000000. -/
theorem input_event_debounce_reads_uninit :
    cpuboost_input_event params_input1200 32 1000000 1000000 0
        { last_input_time := 0, work_pending := false } =
      ({ last_input_time := 0, work_pending := false }, []) ∧
    cpuboost_input_event params_input1200 32 1100000 1100000 2000000
        { last_input_time := 1000000, work_pending := false } =
      ({ last_input_time := 1100000, work_pending := true }, [Call.queue_work_input_boost]) := by
  decide

/-! ## PolicyMinEnforcer: idempotence -/

/-- With no upper limit the kernel helper raises both bounds to the lower limit, cuts
them at `UINT_MAX` and keeps `min <= max`. -/
theorem verify_within_limits_fields (policy : cpufreq_policy) (m : Nat) :
    cpufreq_verify_within_limits policy m UINT_MAX =
      { policy with
        min := min (min (max policy.min m) UINT_MAX) (min (max policy.max m) UINT_MAX)
        max := min (max policy.max m) UINT_MAX } := by
  obtain ⟨ci, c, pmin, pmax, cur⟩ := policy
  unfold cpufreq_verify_within_limits
  dsimp only
  by_cases h1 : pmin < m <;> by_cases h2 : pmax < m <;>
    simp only [h1, h2, if_true, if_false] <;>
    split_ifs <;>
    simp only [cpufreq_policy.mk.injEq, true_and, and_true, UINT_MAX] at * <;>
    (try constructor) <;> omega

/-- C13: for every event value, every proposed policy, well-formed or not, and every
pair of floors, `boost_adjust_notify` applied to its own result with the same floors
returns that result again; it keeps `cpu`, `cur` and `cpuinfo` of the policy. The
function only reads `sync_info`, so the floors and the rest of the record are the same
before and after. -/
theorem boost_adjust_notify_idempotent (si : SyncInfo) (val : Nat) (policy : cpufreq_policy) :
    boost_adjust_notify si val (boost_adjust_notify si val policy) =
      boost_adjust_notify si val policy ∧
    (boost_adjust_notify si val policy).cpu = policy.cpu ∧
    (boost_adjust_notify si val policy).cur = policy.cur ∧
    (boost_adjust_notify si val policy).cpuinfo = policy.cpuinfo := by
  by_cases hv : val ≠ CPUFREQ_ADJUST
  · simp [boost_adjust_notify, hv]
  by_cases hz : (si policy.cpu).boost_min = 0 ∧ (si policy.cpu).input_boost_min = 0
  · simp [boost_adjust_notify, hz]
  have e1 : boost_adjust_notify si val policy =
      cpufreq_verify_within_limits policy
        (Nat.min (max (si policy.cpu).boost_min (si policy.cpu).input_boost_min) policy.max)
        UINT_MAX := by
    unfold boost_adjust_notify
    dsimp only
    rw [if_neg hv, if_neg hz]
  rw [verify_within_limits_fields] at e1
  have e2 : boost_adjust_notify si val (boost_adjust_notify si val policy) =
      cpufreq_verify_within_limits (boost_adjust_notify si val policy)
        (Nat.min (max (si policy.cpu).boost_min (si policy.cpu).input_boost_min)
          (boost_adjust_notify si val policy).max)
        UINT_MAX := by
    have hc : (boost_adjust_notify si val policy).cpu = policy.cpu := by rw [e1]
    generalize boost_adjust_notify si val policy = q at hc ⊢
    unfold boost_adjust_notify
    dsimp only
    rw [hc, if_neg hv, if_neg hz]
  rw [verify_within_limits_fields] at e2
  rw [e2, e1]
  refine ⟨?_, rfl, rfl, rfl⟩
  have hm : ∀ a b : Nat, Nat.min a b = min a b := fun _ _ => rfl
  simp only [cpufreq_policy.mk.injEq, true_and, and_true, UINT_MAX, hm]
  generalize max (si policy.cpu).boost_min (si policy.cpu).input_boost_min = f
  constructor <;> omega

/-! ## Load-based request arithmetic -/

/-- C14: a `task_load` stored by `boost_migration_notify` is at most 100; for
`dest_policy.max <= 42949672` and `task_load <= 100` the product
`dest_policy.max * task_load` fits 32 bits, so the `unsigned int` quotient by 100 is the
exact one and is at most `dest_policy.max`; in every case the request the worker applies
(destination online, no sync cap, request above `cpuinfo.min_freq`) is the product
reduced modulo `2^32`, divided by 100, and the bound 42949672 is sharp: for 42949673 and
load 100 the reduced product is 4 and the request 0. -/
theorem load_based_request_arith (P : Params) (E : Env) (t : Bool)
    (mnd : migration_notify_data) (cpu : Nat) (si : SyncInfo) (sp dp : cpufreq_policy) :
    ((boost_migration_notify P t mnd si).1 = si ∨
      ((boost_migration_notify P t mnd si).1 mnd.dest_cpu).task_load ≤ 100) ∧
    (dp.max ≤ 42949672 → (si cpu).task_load ≤ 100 →
      dp.max * (si cpu).task_load < 4294967296 ∧
      u32 (dp.max * (si cpu).task_load) / 100 = dp.max * (si cpu).task_load / 100 ∧
      u32 (dp.max * (si cpu).task_load) / 100 ≤ dp.max) ∧
    (P.load_based_syncs = true → P.sync_threshold = 0 →
      E.cpufreq_get_policy (si cpu).src_cpu = some sp → E.cpufreq_get_policy cpu = some dp →
      E.cpu_online cpu = true →
      dp.cpuinfo.min_freq < (dp.max * (si cpu).task_load) % 4294967296 / 100 →
      ((run_boost_migration P E cpu si).1 cpu).boost_min =
        (dp.max * (si cpu).task_load) % 4294967296 / 100) ∧
    u32 (42949673 * 100) / 100 = 0 := by
  refine ⟨?_, ?_, ?_, by decide⟩
  · rcases boost_migration_notify_shape P t mnd si with h | ⟨tl, htl, _, h⟩
    · exact Or.inl h
    · right
      rw [h, Function.update_same]
      exact htl
  · intro hm hl
    have hfit : dp.max * (si cpu).task_load < 4294967296 :=
      calc dp.max * (si cpu).task_load ≤ 42949672 * 100 := Nat.mul_le_mul hm hl
        _ < 4294967296 := by decide
    exact ⟨hfit, by rw [u32_of_lt _ hfit], u32_scaled_le _ _ hl⟩
  · intro hlb hcap hs hd hon hgt
    unfold run_boost_migration
    simp only [hs, hd, hon, hlb, hcap, u32, if_true, if_neg (not_le.mpr hgt), ne_eq,
      not_true_eq_false, if_false, Function.update_same]

/-- Witness for C14: `dest_policy.max = 1800` and `task_load = 50` give the exact request
900, which the worker applies on CPU 1. -/
theorem load_based_request_arith_witness :
    u32 ((policy_1800 1).max * (sync_info_pending50 1).task_load) / 100 = 900 ∧
    ((run_boost_migration params_nocap env_online 1 sync_info_pending50).1 1).boost_min
      = 900 := by
  have h := load_based_request_arith params_nocap env_online false ⟨0, 1, 50⟩ 1
    sync_info_pending50 (policy_1800 0) (policy_1800 1)
  exact ⟨(h.2.1 (by decide) (by decide)).2.1.trans (by decide),
    (h.2.2.1 rfl rfl rfl rfl rfl (by decide)).trans (by decide)⟩

/-! ## Global input-boost job -/

/-- The loop body of `do_input_boost` in closed form. -/
theorem do_input_boost_cpu_eq (P : Params) (E : Env) (acc : SyncInfo × List Call) (i : Nat) :
    do_input_boost_cpu P E acc i =
      if input_boost_wanted P E i = true then
        (Function.update acc.1 i { acc.1 i with input_boost_min := P.input_boost_freq },
          acc.2 ++ [Call.cancel_delayed_work_sync i Work.input_boost_rem,
            Call.cpufreq_update_policy i,
            Call.queue_delayed_work_on (acc.1 i).cpu i Work.input_boost_rem P.input_boost_ms])
      else acc := by
  unfold do_input_boost_cpu input_boost_wanted
  cases E.cpufreq_get_policy i with
  | none => simp
  | some p =>
    dsimp only
    by_cases h : p.cur ≥ P.input_boost_freq
    · simp [h]
    · simp [h]

/-- Records after the loop of `do_input_boost` over a list of cores. -/
theorem do_input_boost_fold_state (P : Params) (E : Env) (l : List Nat)
    (acc : SyncInfo × List Call) (c : Nat) :
    (l.foldl (do_input_boost_cpu P E) acc).1 c =
      if c ∈ l ∧ input_boost_wanted P E c = true then
        { acc.1 c with input_boost_min := P.input_boost_freq }
      else acc.1 c := by
  induction l generalizing acc with
  | nil => simp
  | cons i l ih =>
    rw [List.foldl_cons, ih, do_input_boost_cpu_eq]
    by_cases hw : input_boost_wanted P E i = true
    · rw [if_pos hw]
      by_cases hci : c = i
      · subst hci
        simp [hw]
      · simp [hci, Function.update_noteq hci]
    · rw [if_neg hw]
      by_cases hci : c = i
      · subst hci
        simp [hw]
      · simp [hci]

/-- Calls made for core `c` by the loop of `do_input_boost` over a list of distinct
cores. -/
theorem do_input_boost_fold_calls (P : Params) (E : Env) (l : List Nat) (hnd : l.Nodup)
    (acc : SyncInfo × List Call) (c : Nat) :
    calls_for c (l.foldl (do_input_boost_cpu P E) acc).2 =
      calls_for c acc.2 ++
        (if c ∈ l ∧ input_boost_wanted P E c = true then
          [Call.cancel_delayed_work_sync c Work.input_boost_rem,
            Call.cpufreq_update_policy c,
            Call.queue_delayed_work_on (acc.1 c).cpu c Work.input_boost_rem P.input_boost_ms]
        else []) := by
  induction l generalizing acc with
  | nil => simp
  | cons i l ih =>
    obtain ⟨hil, hl⟩ := List.nodup_cons.mp hnd
    rw [List.foldl_cons, ih hl, do_input_boost_cpu_eq]
    by_cases hw : input_boost_wanted P E i = true
    · rw [if_pos hw]
      by_cases hci : c = i
      · subst hci
        simp [hw, hil, calls_for, Call.core]
      · have hic : ¬ i = c := fun e => hci e.symm
        simp [hci, hic, calls_for, Call.core, Function.update_noteq hci]
    · rw [if_neg hw]
      by_cases hci : c = i
      · subst hci
        simp [hw]
      · simp [hci]

/-- The cores visited by `for_each_online_cpu` are the possible CPUs for which
`cpu_online` holds. -/
theorem mem_online_cpus (E : Env) (c : Nat) :
    c ∈ online_cpus E ↔ c < E.nr_cpu_ids ∧ E.cpu_online c = true := by
  simp [online_cpus, List.mem_filter, List.mem_range]

/-- C12: after `do_input_boost`, a possible CPU `c` for which `cpu_online` holds,
whose policy query succeeds and whose `policy.cur` is below `input_boost_freq` has
`input_boost_min` equal to the target, and the calls made for it are one cancellation of
its decay work, one `cpufreq_update_policy` and one `queue_delayed_work_on` of its decay
work with `input_boost_ms`; for any other core (`cpu_online` false or not a possible
CPU, query failed, or `policy.cur` at or above the target) `input_boost_min` is unchanged
and no call is made for it; and in every record only `input_boost_min` can differ from
before. -/
theorem do_input_boost_effect (P : Params) (E : Env) (si : SyncInfo) (c : Nat) :
    (∀ p, c < E.nr_cpu_ids → E.cpu_online c = true → E.cpufreq_get_policy c = some p →
        p.cur < P.input_boost_freq →
      ((do_input_boost P E si).1 c).input_boost_min = P.input_boost_freq ∧
      calls_for c (do_input_boost P E si).2 =
        [Call.cancel_delayed_work_sync c Work.input_boost_rem,
          Call.cpufreq_update_policy c,
          Call.queue_delayed_work_on (si c).cpu c Work.input_boost_rem P.input_boost_ms] ∧
      (do_input_boost P E si).2.count (Call.cpufreq_update_policy c) = 1 ∧
      (do_input_boost P E si).2.count
        (Call.queue_delayed_work_on (si c).cpu c Work.input_boost_rem P.input_boost_ms) = 1) ∧
    ((E.cpu_online c = false ∨ E.nr_cpu_ids ≤ c ∨ E.cpufreq_get_policy c = none ∨
        ∃ p, E.cpufreq_get_policy c = some p ∧ P.input_boost_freq ≤ p.cur) →
      ((do_input_boost P E si).1 c).input_boost_min = (si c).input_boost_min ∧
      calls_for c (do_input_boost P E si).2 = []) ∧
    (do_input_boost P E si).1 c =
      { si c with input_boost_min := ((do_input_boost P E si).1 c).input_boost_min } := by
  have hnd : (online_cpus E).Nodup := List.Nodup.filter _ (List.nodup_range _)
  have hst := do_input_boost_fold_state P E (online_cpus E) (si, []) c
  have hcl := do_input_boost_fold_calls P E (online_cpus E) hnd (si, []) c
  refine ⟨?_, ?_, ?_⟩
  · intro p hposs honl hp hcur
    have hon : c ∈ online_cpus E := (mem_online_cpus E c).mpr ⟨hposs, honl⟩
    have hw : input_boost_wanted P E c = true := by
      simp [input_boost_wanted, hp, hcur]
    rw [if_pos ⟨hon, hw⟩] at hst hcl
    have hcalls : calls_for c (do_input_boost P E si).2 =
        [Call.cancel_delayed_work_sync c Work.input_boost_rem,
          Call.cpufreq_update_policy c,
          Call.queue_delayed_work_on (si c).cpu c Work.input_boost_rem P.input_boost_ms] := by
      unfold do_input_boost
      rw [hcl]
      simp [calls_for]
    refine ⟨?_, hcalls, ?_, ?_⟩
    · unfold do_input_boost
      rw [hst]
    · have hk : (fun k : Call => decide (k.core = some c)) (Call.cpufreq_update_policy c)
          = true := by simp [Call.core]
      have hcf : List.count (Call.cpufreq_update_policy c)
            (calls_for c (do_input_boost P E si).2) =
          List.count (Call.cpufreq_update_policy c) (do_input_boost P E si).2 :=
        List.count_filter hk
      rw [← hcf, hcalls]
      simp
    · have hk : (fun k : Call => decide (k.core = some c))
          (Call.queue_delayed_work_on (si c).cpu c Work.input_boost_rem P.input_boost_ms)
          = true := by simp [Call.core]
      have hcf : List.count
            (Call.queue_delayed_work_on (si c).cpu c Work.input_boost_rem P.input_boost_ms)
            (calls_for c (do_input_boost P E si).2) =
          List.count
            (Call.queue_delayed_work_on (si c).cpu c Work.input_boost_rem P.input_boost_ms)
            (do_input_boost P E si).2 :=
        List.count_filter hk
      rw [← hcf, hcalls]
      simp
  · intro h
    have hw : ¬ (c ∈ online_cpus E ∧ input_boost_wanted P E c = true) := by
      rintro ⟨hon, hw⟩
      obtain ⟨hposs, honl⟩ := (mem_online_cpus E c).mp hon
      rcases h with h | h | h | ⟨p, hp, hcur⟩
      · rw [h] at honl
        exact Bool.false_ne_true honl
      · omega
      · simp [input_boost_wanted, h] at hw
      · simp [input_boost_wanted, hp] at hw
        omega
    rw [if_neg hw] at hst hcl
    constructor
    · unfold do_input_boost
      rw [hst]
    · unfold do_input_boost
      rw [hcl]
      simp [calls_for]
  · unfold do_input_boost
    rw [hst]
    split_ifs <;> rfl

/-- Witness for C12: target 1200 on four possible CPUs; CPU 0 (online, at 600) is
boosted; CPU 1 (offline, policy at 600) and CPU 3 (online, at 1500) are not. -/
theorem do_input_boost_effect_witness :
    ((do_input_boost params_input1200 env_mixed sync_info_init).1 0).input_boost_min = 1200 ∧
    calls_for 0 (do_input_boost params_input1200 env_mixed sync_info_init).2 =
      [Call.cancel_delayed_work_sync 0 Work.input_boost_rem, Call.cpufreq_update_policy 0,
        Call.queue_delayed_work_on 0 0 Work.input_boost_rem 40] ∧
    (env_mixed.cpu_online 1 = false ∧
      env_mixed.cpufreq_get_policy 1 = some (policy_1800 1) ∧
      (policy_1800 1).cur < params_input1200.input_boost_freq ∧
      ((do_input_boost params_input1200 env_mixed sync_info_init).1 1).input_boost_min = 0 ∧
      calls_for 1 (do_input_boost params_input1200 env_mixed sync_info_init).2 = []) ∧
    ((do_input_boost params_input1200 env_mixed sync_info_init).1 3).input_boost_min = 0 ∧
    calls_for 3 (do_input_boost params_input1200 env_mixed sync_info_init).2 = [] := by
  have h := (do_input_boost_effect params_input1200 env_mixed sync_info_init 0).1
    (policy_1800 0) (by decide) rfl rfl (by decide)
  have k := (do_input_boost_effect params_input1200 env_mixed sync_info_init 1).2.1
    (Or.inl rfl)
  have g := (do_input_boost_effect params_input1200 env_mixed sync_info_init 3).2.1
    (Or.inr (Or.inr (Or.inr ⟨_, rfl, by decide⟩)))
  exact ⟨h.1.trans (by decide), h.2.1.trans (by decide),
    ⟨rfl, rfl, by decide, k.1.trans (by decide), k.2⟩, g.1.trans (by decide), g.2⟩

end CpuBoost
